import Mathlib

/-!
Verification of the nutrimat nutrition tracker (src/nutrimat.py).

Numeric values (Python floats) are modelled as exact rationals, Python
ints as integers.  Dictionaries keyed by strings are modelled as
association lists queried with List.lookup.  The external glob matcher
glob.fnmatch.fnmatch is an external library collaborator and is modelled
as an abstract parameter gmatch, universally quantified in the theorems
about filtering.
-/

/-- A nutrient profile: the four numeric fields {calories, fat, carbs,
protein} stored with every food, activity, meal total and day total. -/
@[ext] structure NutrientProfile where
  calories : ℚ
  fat : ℚ
  carbs : ℚ
  protein : ℚ
deriving DecidableEq, Repr

namespace NutrientProfile

instance : Zero NutrientProfile := ⟨⟨0, 0, 0, 0⟩⟩

instance : Add NutrientProfile :=
  ⟨fun a b => ⟨a.calories + b.calories, a.fat + b.fat, a.carbs + b.carbs, a.protein + b.protein⟩⟩

instance : Neg NutrientProfile :=
  ⟨fun a => ⟨-a.calories, -a.fat, -a.carbs, -a.protein⟩⟩

instance : Sub NutrientProfile :=
  ⟨fun a b => ⟨a.calories - b.calories, a.fat - b.fat, a.carbs - b.carbs, a.protein - b.protein⟩⟩

@[simp] theorem zero_calories : (0 : NutrientProfile).calories = 0 := rfl
@[simp] theorem zero_fat : (0 : NutrientProfile).fat = 0 := rfl
@[simp] theorem zero_carbs : (0 : NutrientProfile).carbs = 0 := rfl
@[simp] theorem zero_protein : (0 : NutrientProfile).protein = 0 := rfl

@[simp] theorem add_calories (a b : NutrientProfile) : (a + b).calories = a.calories + b.calories := rfl
@[simp] theorem add_fat (a b : NutrientProfile) : (a + b).fat = a.fat + b.fat := rfl
@[simp] theorem add_carbs (a b : NutrientProfile) : (a + b).carbs = a.carbs + b.carbs := rfl
@[simp] theorem add_protein (a b : NutrientProfile) : (a + b).protein = a.protein + b.protein := rfl

@[simp] theorem neg_calories (a : NutrientProfile) : (-a).calories = -a.calories := rfl
@[simp] theorem neg_fat (a : NutrientProfile) : (-a).fat = -a.fat := rfl
@[simp] theorem neg_carbs (a : NutrientProfile) : (-a).carbs = -a.carbs := rfl
@[simp] theorem neg_protein (a : NutrientProfile) : (-a).protein = -a.protein := rfl

@[simp] theorem sub_calories (a b : NutrientProfile) : (a - b).calories = a.calories - b.calories := rfl
@[simp] theorem sub_fat (a b : NutrientProfile) : (a - b).fat = a.fat - b.fat := rfl
@[simp] theorem sub_carbs (a b : NutrientProfile) : (a - b).carbs = a.carbs - b.carbs := rfl
@[simp] theorem sub_protein (a b : NutrientProfile) : (a - b).protein = a.protein - b.protein := rfl

instance : AddCommGroup NutrientProfile where
  add_assoc a b c := by ext <;> simp <;> ring
  zero_add a := by ext <;> simp
  add_zero a := by ext <;> simp
  add_comm a b := by ext <;> simp <;> ring
  neg_add_cancel a := by ext <;> simp
  sub_eq_add_neg a b := by ext <;> simp <;> ring
  nsmul := nsmulRec
  zsmul := zsmulRec

/-- Scalar multiplication of a profile by a quantity, mirroring the four
parallel multiplications `food.get("...", 0) * quantity` in the source. -/
def scale (p : NutrientProfile) (q : ℚ) : NutrientProfile :=
  ⟨p.calories * q, p.fat * q, p.carbs * q, p.protein * q⟩

@[simp] theorem scale_calories (p : NutrientProfile) (q : ℚ) : (p.scale q).calories = p.calories * q := rfl
@[simp] theorem scale_fat (p : NutrientProfile) (q : ℚ) : (p.scale q).fat = p.fat * q := rfl
@[simp] theorem scale_carbs (p : NutrientProfile) (q : ℚ) : (p.scale q).carbs = p.carbs * q := rfl
@[simp] theorem scale_protein (p : NutrientProfile) (q : ℚ) : (p.scale q).protein = p.protein * q := rfl

/-- Pointwise division by a scalar, mirroring `total_x / days_with_entries`
in handle_summary. -/
def divBy (p : NutrientProfile) (n : ℚ) : NutrientProfile :=
  ⟨p.calories / n, p.fat / n, p.carbs / n, p.protein / n⟩

end NutrientProfile

/-- One line of a meal definition: `{"food": ..., "quantity": ...}` with the
quantity counted in pieces. -/
structure MealLine where
  food : String
  quantity : ℤ
deriving DecidableEq, Repr

/-- The type tag of a diary entry, `entry["type"]` in the source. -/
inductive EntryType where
  | food
  | meal
  | activity
deriving DecidableEq, Repr

/-- A diary entry: `{"type": ..., "name": ..., "quantity": ...}`. -/
structure DiaryEntry where
  type : EntryType
  name : String
  quantity : ℤ
deriving DecidableEq, Repr

/-- The in-memory application state `app_data`: foods, meals, activities and
the diary, each a string-keyed map modelled as an association list. -/
structure AppData where
  foods : List (String × NutrientProfile)
  meals : List (String × List MealLine)
  activities : List (String × NutrientProfile)
  diary : List (String × List DiaryEntry)
deriving Repr

/-- calculate_meal_nutrition (src/nutrimat.py lines 468-495): running totals
over the meal lines; a line whose food is found contributes
`profile * quantity_pieces`, a line whose food is missing is skipped. -/
def calculate_meal_nutrition (meal_contents : List MealLine)
    (foods_data : List (String × NutrientProfile)) : NutrientProfile :=
  meal_contents.foldl (fun acc item =>
    match List.lookup item.food foods_data with
    | some food => acc + food.scale (item.quantity : ℚ)
    | none => acc) 0

/-- calculate_day_nutrition (src/nutrimat.py lines 849-897): running totals
over the day's entries; food and meal entries add `profile * quantity`,
activity entries subtract it, entries whose name does not resolve in the
corresponding catalog are skipped. -/
def calculate_day_nutrition (day_entries : List DiaryEntry) (app : AppData) :
    NutrientProfile :=
  day_entries.foldl (fun acc entry =>
    match entry.type with
    | .food =>
      match List.lookup entry.name app.foods with
      | some food => acc + food.scale (entry.quantity : ℚ)
      | none => acc
    | .meal =>
      match List.lookup entry.name app.meals with
      | some meal_contents =>
          acc + (calculate_meal_nutrition meal_contents app.foods).scale (entry.quantity : ℚ)
      | none => acc
    | .activity =>
      match List.lookup entry.name app.activities with
      | some activity => acc - activity.scale (entry.quantity : ℚ)
      | none => acc) 0

/-- The contribution of a single meal line: `some` of the scaled profile when
the food key resolves, `none` for a dangling reference. -/
def lineContrib (foods_data : List (String × NutrientProfile)) (item : MealLine) :
    Option NutrientProfile :=
  (List.lookup item.food foods_data).map (fun food => food.scale (item.quantity : ℚ))

/-- The signed contribution of a single diary entry to the day total. -/
def entryContrib (app : AppData) (entry : DiaryEntry) : NutrientProfile :=
  match entry.type with
  | .food =>
    match List.lookup entry.name app.foods with
    | some food => food.scale (entry.quantity : ℚ)
    | none => 0
  | .meal =>
    match List.lookup entry.name app.meals with
    | some meal_contents =>
        (calculate_meal_nutrition meal_contents app.foods).scale (entry.quantity : ℚ)
    | none => 0
  | .activity =>
    match List.lookup entry.name app.activities with
    | some activity => -(activity.scale (entry.quantity : ℚ))
    | none => 0

theorem foldl_add_eq_sum {α : Type} (f : α → NutrientProfile)
    (l : List α) (init : NutrientProfile) :
    l.foldl (fun acc x => acc + f x) init = init + (l.map f).sum := by
  induction l generalizing init with
  | nil => simp
  | cons a t ih => simp [List.foldl_cons, ih, add_assoc]

theorem calculate_meal_nutrition_eq_sum (meal_contents : List MealLine)
    (foods_data : List (String × NutrientProfile)) :
    calculate_meal_nutrition meal_contents foods_data
      = (meal_contents.map (fun item => (lineContrib foods_data item).getD 0)).sum := by
  have h : calculate_meal_nutrition meal_contents foods_data
      = meal_contents.foldl (fun acc item => acc + (lineContrib foods_data item).getD 0) 0 := by
    unfold calculate_meal_nutrition
    congr 1
    funext acc item
    unfold lineContrib
    cases List.lookup item.food foods_data <;> simp
  rw [h, foldl_add_eq_sum, zero_add]

theorem calculate_day_nutrition_eq_sum (day_entries : List DiaryEntry) (app : AppData) :
    calculate_day_nutrition day_entries app
      = (day_entries.map (entryContrib app)).sum := by
  have h : calculate_day_nutrition day_entries app
      = day_entries.foldl (fun acc entry => acc + entryContrib app entry) 0 := by
    unfold calculate_day_nutrition
    congr 1
    funext acc entry
    unfold entryContrib
    cases entry.type with
    | food => cases List.lookup entry.name app.foods <;> simp
    | meal => cases List.lookup entry.name app.meals <;> simp
    | activity => cases List.lookup entry.name app.activities <;> simp [sub_eq_add_neg]
  rw [h, foldl_add_eq_sum, zero_add]

theorem sum_map_getD_eq_sum_filterMap {α : Type} (g : α → Option NutrientProfile)
    (l : List α) :
    (l.map (fun a => (g a).getD 0)).sum = (l.filterMap g).sum := by
  induction l with
  | nil => simp
  | cons a t ih =>
    cases h : g a <;> simp [List.filterMap_cons, h, ih]

/-!  Meal Composer editing session (run_meal_editor, src/nutrimat.py 541-628) -/

/-- The add command's merge step (src/nutrimat.py 599-609): scan the meal
contents for the first line with the given food name and increment its
quantity; if none is found, append a new line at the end. -/
def addLine : List MealLine → String → ℤ → List MealLine
  | [], food_name, pieces => [⟨food_name, pieces⟩]
  | item :: rest, food_name, pieces =>
    if item.food = food_name then ⟨item.food, item.quantity + pieces⟩ :: rest
    else item :: addLine rest food_name pieces

/-- The full add command of the meal editor (src/nutrimat.py 578-609):
reject when the food is not in the local food catalog or when the piece
count is not a positive integer, otherwise merge with addLine. -/
def editorAdd (foods_data : List (String × NutrientProfile))
    (contents : List MealLine) (food_name : String) (pieces : ℤ) : List MealLine :=
  if (List.lookup food_name foods_data).isSome = false then contents
  else if pieces ≤ 0 then contents
  else addLine contents food_name pieces

/-- The delete command of the meal editor (src/nutrimat.py 611-623): remove
every line whose food equals the given name. -/
def editorDelete (contents : List MealLine) (food_name : String) : List MealLine :=
  contents.filter (fun item => item.food ≠ food_name)

/-!  Diary Browser/Logger (handle_log_food, src/nutrimat.py 971-1063).
The source first builds `food_list = sorted(foods.items())`, the local
catalog as a list of pairs sorted by name; the pager below is a pure
function of that list. -/

/-- The fixed page size `items_per_page = 10` of the diary log pagers. -/
def items_per_page : ℕ := 10

/-- The page slice `food_list[start_index:end_index]` with
`start_index = (current_page - 1) * items_per_page` (src/nutrimat.py
988-990). -/
def pageItems (food_list : List (String × NutrientProfile)) (page : ℕ) :
    List (String × NutrientProfile) :=
  (food_list.drop ((page - 1) * items_per_page)).take items_per_page

/-- The rows of the displayed table with their index column
(src/nutrimat.py 1000-1008): the records of the current page slice are
numbered starting from `start_index + 1`, i.e. by their global position in
the sorted list. -/
def pageRows (food_list : List (String × NutrientProfile)) (page : ℕ) :
    List (ℕ × (String × NutrientProfile)) :=
  List.enumFrom ((page - 1) * items_per_page + 1) (pageItems food_list page)

/-- Resolution of a typed selection index (src/nutrimat.py 1029-1032):
`index = int(command) - 1`, accepted iff `0 <= index < len(food_list)`,
and resolved as `food_list[index]` against the full sorted list. -/
def logSelect (food_list : List (String × NutrientProfile)) (command : ℕ) :
    Option (String × NutrientProfile) :=
  let index : ℤ := (command : ℤ) - 1
  if 0 ≤ index ∧ index < food_list.length then food_list[index.toNat]? else none

/-!  Rolling summary (handle_summary, src/nutrimat.py 1299-1346). -/

/-- Python truthiness test `date_str in app_data["diary"] and
app_data["diary"][date_str]`: the date is present and its entry list is
nonempty. -/
def hasEntries (diary : List (String × List DiaryEntry)) (date_str : String) : Bool :=
  match List.lookup date_str diary with
  | some entries => !entries.isEmpty
  | none => false

/-- The entries stored for a date (empty when the date is absent). -/
def diaryEntries (app : AppData) (date_str : String) : List DiaryEntry :=
  (List.lookup date_str app.diary).getD []

/-- The accumulation loop of handle_summary (src/nutrimat.py 1325-1336)
over the window of dates: for each date that has at least one entry, add
its day total to the running totals and count it.  Returns the summed
profile and `days_with_entries`. -/
def periodSummary (app : AppData) (dates : List String) : NutrientProfile × ℕ :=
  dates.foldl (fun acc date_str =>
    if hasEntries app.diary date_str then
      (acc.1 + calculate_day_nutrition (diaryEntries app date_str) app, acc.2 + 1)
    else acc) (0, 0)

/-- The reported average (src/nutrimat.py 1339-1346): each summed field is
divided by `days_with_entries` when that count is positive; otherwise the
command reports that no diary entries were found, modelled as `none`. -/
def periodAverage (app : AppData) (dates : List String) : Option NutrientProfile :=
  let s := periodSummary app dates
  if s.2 > 0 then some (s.1.divBy (s.2 : ℚ)) else none

/-!  Remote Search Browser (handle_search_food and display_search_results,
src/nutrimat.py 214-463).  The glob matcher `glob.fnmatch.fnmatch` is an
external library function; it is passed in as a parameter `gmatch`. -/

/-- The fixed remote page size `SEARCH_PAGE_SIZE = 25`. -/
def SEARCH_PAGE_SIZE : ℕ := 25

/-- A raw record returned by the remote search service.  `product_name`
models `product.get('product_name', '')`; each nutrient field models the
result of the corresponding `nutriments.get(...)` chain (for calories the
`energy-kcal_100g` / `energy_kcal_100g` fallback chain), with `none`
standing for a missing or empty value. -/
structure RawRecord where
  product_name : String
  quantity : String
  calories_100g : Option ℚ
  fat_100g : Option ℚ
  carbs_100g : Option ℚ
  protein_100g : Option ℚ
deriving DecidableEq, Repr

/-- The per-100-unit profile of a raw record once its four nutrient fields
are known to be present (src/nutrimat.py 430-435). -/
def recordProfile (r : RawRecord) : NutrientProfile :=
  ⟨r.calories_100g.getD 0, r.fat_100g.getD 0, r.carbs_100g.getD 0, r.protein_100g.getD 0⟩

/-- The filter test shared by both code paths: a record is kept when the
filter is empty (Python truthiness of `current_filter`) or when the glob
matcher accepts the stripped, lowercased product name
(`glob.fnmatch.fnmatch(product_name.lower(), current_filter)`). -/
def matchesFilterB (gmatch : String → String → Bool) (current_filter : String)
    (r : RawRecord) : Bool :=
  if current_filter = "" then true
  else gmatch r.product_name.trim.toLower current_filter

/-- The completeness test shared by both code paths: `not any(val is None or
val == '' for val in [calories, fat, carbs, protein])`. -/
def completeB (r : RawRecord) : Bool :=
  r.calories_100g.isSome && r.fat_100g.isSome && r.carbs_100g.isSome && r.protein_100g.isSome

/-- The slice of already-fetched records belonging to the current page,
`all_products[(current_page - 1) * SEARCH_PAGE_SIZE : current_page *
SEARCH_PAGE_SIZE]` (src/nutrimat.py 324 and 400). -/
def pageSliceSearch (all_products : List RawRecord) (current_page : ℕ) : List RawRecord :=
  (all_products.drop ((current_page - 1) * SEARCH_PAGE_SIZE)).take SEARCH_PAGE_SIZE

/-- The rows rendered by display_search_results (src/nutrimat.py 245-277)
from the page slice it is handed: records failing the filter test or the
completeness test are skipped by `continue`, the rest are kept in order
and numbered consecutively from 1 by `displayed_count`. -/
def displayRows (gmatch : String → String → Bool) (products : List RawRecord)
    (current_filter : String) : List RawRecord :=
  products.filter (fun p => matchesFilterB gmatch current_filter p && completeB p)

/-- The numbered rows of the rendered table: `display_index =
displayed_count + 1` pairs each kept record with its 1-based position. -/
def displayTable (gmatch : String → String → Bool) (products : List RawRecord)
    (current_filter : String) : List (ℕ × RawRecord) :=
  List.enumFrom 1 (displayRows gmatch products current_filter)

/-- The list `filtered_products_on_page` rebuilt by the selection command
handler (src/nutrimat.py 399-413): the current page slice of
`all_products`, dropping records failing the filter test and records
without complete nutritional data. -/
def filtered_products_on_page (gmatch : String → String → Bool)
    (all_products : List RawRecord) (current_page : ℕ) (current_filter : String) :
    List RawRecord :=
  (pageSliceSearch all_products current_page).filter
    (fun p => matchesFilterB gmatch current_filter p && completeB p)

/-- Modelled from the spec: the "displayable set" pipeline as the spec words
it — take the page slice, drop records with incomplete nutrient fields,
then drop records whose name does not match the filter. -/
def displayableSetSpec (gmatch : String → String → Bool)
    (all_products : List RawRecord) (current_page : ℕ) (current_filter : String) :
    List RawRecord :=
  ((pageSliceSearch all_products current_page).filter completeB).filter
    (matchesFilterB gmatch current_filter)

/-- Resolution of the index argument of an `a <index> ...` command
(src/nutrimat.py 416-421): reject indices outside
`[1, len(filtered_products_on_page)]`, otherwise take
`filtered_products_on_page[display_index - 1]`. -/
def resolveSelect (gmatch : String → String → Bool) (all_products : List RawRecord)
    (current_page : ℕ) (current_filter : String) (display_index : ℤ) :
    Option RawRecord :=
  let flist := filtered_products_on_page gmatch all_products current_page current_filter
  if display_index < 1 ∨ display_index > flist.length then none
  else flist[(display_index - 1).toNat]?

/-- The mutable state of a search-pager session (src/nutrimat.py 299-313):
the query, all fetched products in order, the current page number, the
current filter, and the total result count reported by the service
(fixed after the initial fetch). -/
structure SearchState where
  query : String
  all_products : List RawRecord
  current_page : ℕ
  current_filter : String
  total_products : ℕ
deriving DecidableEq, Repr

/-- `total_pages = math.ceil(total_products / SEARCH_PAGE_SIZE)`
(src/nutrimat.py 313), as a natural-number ceiling division. -/
def totalPagesOf (st : SearchState) : ℕ :=
  (st.total_products + SEARCH_PAGE_SIZE - 1) / SEARCH_PAGE_SIZE

/-- The outcome of the synchronous fetch attempted by the `n` command:
either a page of records or a request failure. -/
inductive FetchResult where
  | success (products : List RawRecord)
  | failure
deriving DecidableEq, Repr

/-- The `n` command (src/nutrimat.py 338-356).  On a non-last page the page
number is incremented; if the new page lies beyond the fetched records a
fetch is attempted, and on failure the page number is decremented again.
On the last page nothing happens.  The Boolean records whether a fetch
request was issued. -/
def nextCmd (st : SearchState) (fetch : FetchResult) : SearchState × Bool :=
  if st.current_page < totalPagesOf st then
    let stepped : SearchState := { st with current_page := st.current_page + 1 }
    if stepped.current_page * SEARCH_PAGE_SIZE > st.all_products.length then
      match fetch with
      | .success products =>
          ({ stepped with all_products := st.all_products ++ products }, true)
      | .failure =>
          ({ stepped with current_page := stepped.current_page - 1 }, true)
    else (stepped, false)
  else (st, false)

/-- The quantity-factor computation of the `a` command (src/nutrimat.py
378-389): no third argument means a factor of 1 (100g); a supplied gram
value is divided by 100, and a non-positive factor falls back to 1 with a
warning. -/
def quantityFactor (grams : Option ℚ) : ℚ :=
  match grams with
  | none => 1
  | some g => if g / 100 ≤ 0 then 1 else g / 100

/-- A parsed pager command of the search session (src/nutrimat.py 335-454). -/
inductive PagerCmd where
  | quit
  | next (fetch : FetchResult)
  | prev
  | setFilter (pattern : String)
  | select (display_index : ℤ) (local_name : String) (grams : Option ℚ)
  | unknown
deriving DecidableEq, Repr

/-- The fate of one iteration of the pager loop: either the loop continues
with the given session state and food catalog, or the search session ends
(by `break` or by `return`) leaving that state behind. -/
inductive PagerOutcome where
  | cont (st : SearchState) (foods : List (String × NutrientProfile))
  | exit (st : SearchState) (foods : List (String × NutrientProfile))
deriving DecidableEq, Repr

/-- Whether the pager loop keeps accepting commands after the step. -/
def PagerOutcome.continues : PagerOutcome → Bool
  | .cont _ _ => true
  | .exit _ _ => false

/-- The food catalog left behind by the step. -/
def PagerOutcome.foodsOf : PagerOutcome → List (String × NutrientProfile)
  | .cont _ foods => foods
  | .exit _ foods => foods

/-- One iteration of the interactive pager loop of handle_search_food
(src/nutrimat.py 322-454) on an already-parsed command.  `q` breaks out of
the loop; `n` and `p` move pages; `/` replaces the filter; `a` resolves
its index against the freshly rebuilt filtered page, rejects an invalid
index (loop continues unchanged), exits the whole handler by `return`
when the chosen local name already exists in the food catalog, and
otherwise stores the scaled record under the local name. -/
def pagerStep (gmatch : String → String → Bool) (st : SearchState)
    (foods : List (String × NutrientProfile)) : PagerCmd → PagerOutcome
  | .quit => .exit st foods
  | .next fetch => .cont (nextCmd st fetch).1 foods
  | .prev =>
    if st.current_page > 1 then
      .cont { st with current_page := st.current_page - 1 } foods
    else .cont st foods
  | .setFilter pattern => .cont { st with current_filter := pattern } foods
  | .select display_index local_name grams =>
    match resolveSelect gmatch st.all_products st.current_page st.current_filter
        display_index with
    | none => .cont st foods
    | some r =>
      if (List.lookup local_name foods).isSome then .exit st foods
      else
        .cont st (foods ++ [(local_name, (recordProfile r).scale (quantityFactor grams))])
  | .unknown => .cont st foods

/-!  Theorems.  Each claim Cn of the specification gets one theorem below,
with concrete example data where the claim calls for it. -/

theorem calculate_meal_nutrition_eq_filterMap_sum (meal_contents : List MealLine)
    (foods_data : List (String × NutrientProfile)) :
    calculate_meal_nutrition meal_contents foods_data
      = (meal_contents.filterMap (lineContrib foods_data)).sum := by
  rw [calculate_meal_nutrition_eq_sum, sum_map_getD_eq_sum_filterMap]

/-- Claim C3: for every MealDefinition with lines L1..Ln and every Food
Catalog F, mealTotal equals the pointwise sum over the resolvable lines of
profile(F[Li.food_key]) * Li.quantity — lines whose food_key does not
resolve are skipped without aborting aggregation — and the result is
invariant under reordering of the lines. -/
theorem mealTotal_sum_and_reorder_invariant :
    (∀ (meal_contents : List MealLine) (foods_data : List (String × NutrientProfile)),
      calculate_meal_nutrition meal_contents foods_data
        = (meal_contents.filterMap (lineContrib foods_data)).sum)
    ∧ (∀ (l₁ l₂ : List MealLine) (foods_data : List (String × NutrientProfile)),
      l₁.Perm l₂ →
      calculate_meal_nutrition l₁ foods_data = calculate_meal_nutrition l₂ foods_data) := by
  refine ⟨calculate_meal_nutrition_eq_filterMap_sum, ?_⟩
  intro l₁ l₂ foods_data hperm
  rw [calculate_meal_nutrition_eq_filterMap_sum, calculate_meal_nutrition_eq_filterMap_sum]
  exact (hperm.filterMap (lineContrib foods_data)).sum_eq

/-- Concrete instance of C3: the fruit-bowl scenario of the spec, reordered
two ways, evaluated against a concrete catalog. -/
theorem mealTotal_sum_and_reorder_invariant_witness :
    calculate_meal_nutrition [⟨"apple", 2⟩, ⟨"banana", 1⟩]
        [("apple", ⟨52, 1/5, 14, 3/10⟩), ("banana", ⟨89, 3/10, 23, 11/10⟩)]
      = calculate_meal_nutrition [⟨"banana", 1⟩, ⟨"apple", 2⟩]
        [("apple", ⟨52, 1/5, 14, 3/10⟩), ("banana", ⟨89, 3/10, 23, 11/10⟩)]
    ∧ calculate_meal_nutrition [⟨"apple", 2⟩, ⟨"banana", 1⟩]
        [("apple", ⟨52, 1/5, 14, 3/10⟩), ("banana", ⟨89, 3/10, 23, 11/10⟩)]
      = ⟨193, 7/10, 51, 17/10⟩ := by
  refine ⟨mealTotal_sum_and_reorder_invariant.2 _ _ _ (List.Perm.swap _ _ _), ?_⟩
  rw [NutrientProfile.ext_iff]
  simp [calculate_meal_nutrition, List.lookup]
  norm_num

/-- Claim C2: dayTotal subtracts activity contributions pointwise — every
resolvable activity entry contributes profile(activities[name]) * quantity
negatively to all four nutrient fields — and, concretely, a day with one
food entry contributing 200 calories and one activity entry of an
activity with 300 calories at quantity 1 yields a day total of -100
calories. -/
theorem dayTotal_subtracts_activities :
    (∀ (pre post : List DiaryEntry) (e : DiaryEntry) (app : AppData)
      (a : NutrientProfile),
      e.type = .activity → List.lookup e.name app.activities = some a →
      calculate_day_nutrition (pre ++ e :: post) app
        = calculate_day_nutrition (pre ++ post) app - a.scale (e.quantity : ℚ))
    ∧ (calculate_day_nutrition
        [⟨.food, "bread", 1⟩, ⟨.activity, "running", 1⟩]
        ⟨[("bread", ⟨200, 0, 0, 0⟩)], [], [("running", ⟨300, 0, 0, 0⟩)], []⟩).calories
      = -100 := by
  constructor
  · intro pre post e app a htype hlook
    rw [calculate_day_nutrition_eq_sum, calculate_day_nutrition_eq_sum]
    have hc : entryContrib app e = -(a.scale (e.quantity : ℚ)) := by
      unfold entryContrib
      rw [htype, hlook]
    simp [hc]
    abel
  · simp [calculate_day_nutrition, List.lookup]
    norm_num

/-- Concrete application of C2's pointwise subtraction at the spec's running
scenario: removing the activity entry raises the day total by exactly the
activity's scaled profile. -/
theorem dayTotal_subtracts_activities_witness :
    calculate_day_nutrition
        ([⟨.food, "bread", 1⟩] ++ (⟨.activity, "running", 1⟩ : DiaryEntry) :: [])
        ⟨[("bread", ⟨200, 0, 0, 0⟩)], [], [("running", ⟨300, 0, 0, 0⟩)], []⟩
      = calculate_day_nutrition ([⟨.food, "bread", 1⟩] ++ [])
          ⟨[("bread", ⟨200, 0, 0, 0⟩)], [], [("running", ⟨300, 0, 0, 0⟩)], []⟩
        - (⟨300, 0, 0, 0⟩ : NutrientProfile).scale ((1 : ℤ) : ℚ) :=
  dayTotal_subtracts_activities.1 [⟨.food, "bread", 1⟩] [] ⟨.activity, "running", 1⟩
    ⟨[("bread", ⟨200, 0, 0, 0⟩)], [], [("running", ⟨300, 0, 0, 0⟩)], []⟩
    ⟨300, 0, 0, 0⟩ rfl rfl

theorem periodSummary_foldl_eq (app : AppData) (dates : List String)
    (acc : NutrientProfile × ℕ) :
    dates.foldl (fun acc date_str =>
        if hasEntries app.diary date_str then
          (acc.1 + calculate_day_nutrition (diaryEntries app date_str) app, acc.2 + 1)
        else acc) acc
      = (acc.1 + ((dates.filter (hasEntries app.diary)).map
            (fun d => calculate_day_nutrition (diaryEntries app d) app)).sum,
         acc.2 + (dates.filter (hasEntries app.diary)).length) := by
  induction dates generalizing acc with
  | nil => simp
  | cons d t ih =>
    by_cases h : hasEntries app.diary d
    · simp [h, ih, add_assoc, Nat.add_comm, Nat.add_assoc, Nat.add_left_comm]
    · simp [h, ih]

theorem periodSummary_eq (app : AppData) (dates : List String) :
    periodSummary app dates
      = (((dates.filter (hasEntries app.diary)).map
            (fun d => calculate_day_nutrition (diaryEntries app d) app)).sum,
         (dates.filter (hasEntries app.diary)).length) := by
  unfold periodSummary
  rw [periodSummary_foldl_eq]
  simp

/-- Claim C6: periodAverage over a window of dates sums dayTotal only over
the dates that have at least one diary entry and divides by the count of
such dates, not by the window length; if no date in the window has
entries it signals "no data" (modelled as none) instead of returning an
average.  The final conjunct is the concrete 7-day window of the spec in
which only 2 days have entries: the denominator is 2, not 7. -/
theorem periodAverage_divides_by_days_with_entries :
    (∀ (app : AppData) (dates : List String),
      periodSummary app dates
        = (((dates.filter (hasEntries app.diary)).map
              (fun d => calculate_day_nutrition (diaryEntries app d) app)).sum,
           (dates.filter (hasEntries app.diary)).length))
    ∧ (∀ (app : AppData) (dates : List String),
      (dates.filter (hasEntries app.diary)).length = 0 →
      periodAverage app dates = none)
    ∧ (∀ (app : AppData) (dates : List String),
      0 < (dates.filter (hasEntries app.diary)).length →
      periodAverage app dates
        = some ((((dates.filter (hasEntries app.diary)).map
              (fun d => calculate_day_nutrition (diaryEntries app d) app)).sum).divBy
            (((dates.filter (hasEntries app.diary)).length : ℚ))))
    ∧ (let app : AppData :=
        ⟨[("bread", ⟨100, 0, 0, 0⟩)], [], [],
         [("2026-10-07", [⟨.food, "bread", 1⟩]), ("2026-10-10", [⟨.food, "bread", 3⟩])]⟩
       let dates : List String :=
        ["2026-10-06", "2026-10-07", "2026-10-08", "2026-10-09", "2026-10-10",
         "2026-10-11", "2026-10-12"]
       dates.length = 7 ∧ (periodSummary app dates).2 = 2
         ∧ periodAverage app dates = some ((periodSummary app dates).1.divBy 2)) := by
  refine ⟨periodSummary_eq, ?_, ?_, ?_⟩
  · intro app dates h
    unfold periodAverage
    rw [periodSummary_eq]
    simp [h]
  · intro app dates h
    unfold periodAverage
    rw [periodSummary_eq]
    simp [Nat.pos_iff_ne_zero.mp h]
  · refine ⟨rfl, ?_, ?_⟩
    · rw [periodSummary_eq]
      simp [hasEntries, List.lookup, diaryEntries]
    · unfold periodAverage
      rw [periodSummary_eq]
      simp [hasEntries, List.lookup, diaryEntries]

/-- Concrete application of C6's no-data case: an empty diary over a one-day
window reports "no data" rather than an average. -/
theorem periodAverage_divides_by_days_with_entries_witness :
    periodAverage ⟨[], [], [], []⟩ ["2026-10-12"] = none :=
  periodAverage_divides_by_days_with_entries.2.1 ⟨[], [], [], []⟩ ["2026-10-12"] rfl

theorem addLine_of_not_mem (s : List MealLine) (f : String) (p : ℤ)
    (h : f ∉ s.map (fun it => it.food)) :
    addLine s f p = s ++ [⟨f, p⟩] := by
  induction s with
  | nil => rfl
  | cons x t ih =>
    simp only [List.map_cons, List.mem_cons, not_or] at h
    have hx : ¬ x.food = f := fun hh => h.1 hh.symm
    simp only [addLine, if_neg hx, ih h.2, List.cons_append]

theorem addLine_of_head_match (t : List MealLine) (x : MealLine) (f : String)
    (p : ℤ) (hx : x.food = f) :
    addLine (x :: t) f p = ⟨x.food, x.quantity + p⟩ :: t := by
  simp only [addLine, if_pos hx]

theorem addLine_keys_of_mem (s : List MealLine) (f : String) (p : ℤ)
    (h : f ∈ s.map (fun it => it.food)) :
    (addLine s f p).map (fun it => it.food) = s.map (fun it => it.food) := by
  induction s with
  | nil => simp at h
  | cons x t ih =>
    by_cases hx : x.food = f
    · rw [addLine_of_head_match t x f p hx]
      simp
    · simp only [List.map_cons, List.mem_cons] at h
      have hmem : f ∈ t.map (fun it => it.food) := by
        rcases h with h1 | h2
        · exact absurd h1.symm hx
        · exact h2
      simp only [addLine, if_neg hx, List.map_cons, ih hmem]

theorem addLine_keys_nodup (s : List MealLine) (f : String) (p : ℤ)
    (h : (s.map (fun it => it.food)).Nodup) :
    ((addLine s f p).map (fun it => it.food)).Nodup := by
  by_cases hm : f ∈ s.map (fun it => it.food)
  · rw [addLine_keys_of_mem s f p hm]
    exact h
  · rw [addLine_of_not_mem s f p hm]
    simp only [List.map_append]
    simp [List.nodup_append, h, hm]


theorem addLine_append_single (s : List MealLine) (f : String) (p1 p2 : ℤ)
    (h : f ∉ s.map (fun it => it.food)) :
    addLine (s ++ [⟨f, p1⟩]) f p2 = s ++ [⟨f, p1 + p2⟩] := by
  induction s with
  | nil => simp [addLine]
  | cons x t ih =>
    simp only [List.map_cons, List.mem_cons, not_or] at h
    have hx : ¬ x.food = f := fun hh => h.1 hh.symm
    simp only [List.cons_append, addLine, if_neg hx, List.append_eq, ih h.2]

/-- Claim C7: in the meal editor, adding the same (catalog-present) food
twice with positive piece counts p1 then p2 yields exactly one MealLine
for that food, carrying quantity p1+p2, and leaves every other line
untouched; moreover every sequence of add commands preserves the
invariant that there is at most one MealLine per distinct food key. -/
theorem mealEditor_duplicate_add_merges :
    (∀ (foods_data : List (String × NutrientProfile)) (s : List MealLine)
      (f : String) (p1 p2 : ℤ),
      0 < p1 → 0 < p2 → (List.lookup f foods_data).isSome →
      f ∉ s.map (fun it => it.food) →
      editorAdd foods_data (editorAdd foods_data s f p1) f p2
        = s ++ [⟨f, p1 + p2⟩])
    ∧ (∀ (foods_data : List (String × NutrientProfile)) (ops : List (String × ℤ))
      (s : List MealLine),
      ((s.map (fun it => it.food)).Nodup) →
      (((ops.foldl (fun c op => editorAdd foods_data c op.1 op.2) s).map
          (fun it => it.food)).Nodup)) := by
  constructor
  · intro foods_data s f p1 p2 hp1 hp2 hf hmem
    unfold editorAdd
    rw [hf]
    simp only [Bool.true_eq_false, if_false, if_neg (not_le.mpr hp1), if_neg (not_le.mpr hp2)]
    rw [addLine_of_not_mem s f p1 hmem]
    exact addLine_append_single s f p1 p2 hmem
  · intro foods_data ops
    induction ops with
    | nil => intro s h; simpa using h
    | cons op t ih =>
      intro s h
      simp only [List.foldl_cons]
      apply ih
      unfold editorAdd
      by_cases h1 : (List.lookup op.1 foods_data).isSome
      · rw [h1]
        by_cases h2 : op.2 ≤ 0
        · simp [h2, h]
        · simp only [Bool.true_eq_false, if_false, if_neg h2]
          exact addLine_keys_nodup s op.1 op.2 h
      · simp only [Bool.not_eq_true] at h1
        rw [h1]
        simpa using h

/-- Concrete application of C7: adding apple twice (2 pieces then 3) to an
empty meal yields the single line (apple, 5). -/
theorem mealEditor_duplicate_add_merges_witness :
    editorAdd [("apple", ⟨52, 0, 14, 0⟩)]
        (editorAdd [("apple", ⟨52, 0, 14, 0⟩)] [] "apple" 2) "apple" 3
      = [] ++ [⟨"apple", 2 + 3⟩] :=
  mealEditor_duplicate_add_merges.1 [("apple", ⟨52, 0, 14, 0⟩)] [] "apple" 2 3
    (by norm_num) (by norm_num) rfl (by simp)

theorem mem_enumFrom_getElem {α : Type} (l : List α) (n i : ℕ) (a : α)
    (h : (i, a) ∈ List.enumFrom n l) : n ≤ i ∧ l[i - n]? = some a := by
  induction l generalizing n with
  | nil => simp at h
  | cons x t ih =>
    simp only [List.enumFrom, List.mem_cons] at h
    rcases h with h | h
    · cases h
      simp
    · obtain ⟨h1, h2⟩ := ih (n + 1) h
      refine ⟨by omega, ?_⟩
      have hsub : i - n = (i - (n + 1)) + 1 := by omega
      rw [hsub]
      simpa using h2

theorem logSelect_eq (food_list : List (String × NutrientProfile)) (i : ℕ)
    (h1 : 1 ≤ i) (h2 : i ≤ food_list.length) :
    logSelect food_list i = food_list[i - 1]? := by
  unfold logSelect
  have hc : (0 : ℤ) ≤ (i : ℤ) - 1 ∧ (i : ℤ) - 1 < food_list.length := by omega
  rw [if_pos hc]
  congr 1
  omega

theorem pageItems_getElem (food_list : List (String × NutrientProfile))
    (page j : ℕ) (hj : j < items_per_page) :
    (pageItems food_list page)[j]? = food_list[(page - 1) * items_per_page + j]? := by
  unfold pageItems
  rw [List.getElem?_take, if_pos hj, List.getElem?_drop]

/-- Claim C10: in the Diary Browser/Logger, the index numbers displayed next
to records are global positions in the full name-sorted catalog list
(page offset plus row), a typed selection index i is resolved as
sortedList[i-1] against the full list, the number shown beside a record
always selects exactly that record, and every index in [1, catalog size]
is accepted — even when the record it denotes is not on the currently
displayed page. -/
theorem diary_displayed_index_selects_displayed_record :
    (∀ (food_list : List (String × NutrientProfile)) (page : ℕ)
      (i : ℕ) (rec : String × NutrientProfile),
      (i, rec) ∈ pageRows food_list page → logSelect food_list i = some rec)
    ∧ (∀ (food_list : List (String × NutrientProfile)) (i : ℕ),
      1 ≤ i → i ≤ food_list.length →
      logSelect food_list i = food_list[i - 1]? ∧ (logSelect food_list i).isSome) := by
  constructor
  · intro food_list page i rec hmem
    obtain ⟨h1, h2⟩ := mem_enumFrom_getElem _ _ _ _ hmem
    have hjlt : i - ((page - 1) * items_per_page + 1) < (pageItems food_list page).length := by
      obtain ⟨hl, -⟩ := List.getElem?_eq_some_iff.mp h2
      exact hl
    have hjp : i - ((page - 1) * items_per_page + 1) < items_per_page := by
      have hlen : (pageItems food_list page).length ≤ items_per_page := by
        unfold pageItems
        simp
      omega
    rw [pageItems_getElem food_list page _ hjp] at h2
    have hglobal : (page - 1) * items_per_page + (i - ((page - 1) * items_per_page + 1))
        = i - 1 := by omega
    rw [hglobal] at h2
    obtain ⟨hilen, -⟩ := List.getElem?_eq_some_iff.mp h2
    rw [logSelect_eq food_list i (by omega) (by omega)]
    exact h2
  · intro food_list i h1 h2
    refine ⟨logSelect_eq food_list i h1 h2, ?_⟩
    rw [logSelect_eq food_list i h1 h2]
    rw [List.getElem?_eq_getElem (by omega)]
    simp

/-- Concrete application of C10: with an 11-record catalog displayed on
page 2, the record shown with number 11 is selected by typing 11, and the
out-of-page index 1 is accepted as well. -/
theorem diary_displayed_index_selects_displayed_record_witness :
    logSelect
        [("f00", ⟨0,0,0,0⟩), ("f01", ⟨1,0,0,0⟩), ("f02", ⟨2,0,0,0⟩), ("f03", ⟨3,0,0,0⟩),
         ("f04", ⟨4,0,0,0⟩), ("f05", ⟨5,0,0,0⟩), ("f06", ⟨6,0,0,0⟩), ("f07", ⟨7,0,0,0⟩),
         ("f08", ⟨8,0,0,0⟩), ("f09", ⟨9,0,0,0⟩), ("f10", ⟨10,0,0,0⟩)] 11
      = some ("f10", ⟨10,0,0,0⟩)
    ∧ (logSelect
        [("f00", ⟨0,0,0,0⟩), ("f01", ⟨1,0,0,0⟩), ("f02", ⟨2,0,0,0⟩), ("f03", ⟨3,0,0,0⟩),
         ("f04", ⟨4,0,0,0⟩), ("f05", ⟨5,0,0,0⟩), ("f06", ⟨6,0,0,0⟩), ("f07", ⟨7,0,0,0⟩),
         ("f08", ⟨8,0,0,0⟩), ("f09", ⟨9,0,0,0⟩), ("f10", ⟨10,0,0,0⟩)] 1).isSome := by
  constructor
  · have h := diary_displayed_index_selects_displayed_record.1
      [("f00", ⟨0,0,0,0⟩), ("f01", ⟨1,0,0,0⟩), ("f02", ⟨2,0,0,0⟩), ("f03", ⟨3,0,0,0⟩),
       ("f04", ⟨4,0,0,0⟩), ("f05", ⟨5,0,0,0⟩), ("f06", ⟨6,0,0,0⟩), ("f07", ⟨7,0,0,0⟩),
       ("f08", ⟨8,0,0,0⟩), ("f09", ⟨9,0,0,0⟩), ("f10", ⟨10,0,0,0⟩)] 2 11 ("f10", ⟨10,0,0,0⟩)
    apply h
    simp [pageRows, pageItems, items_per_page, List.enumFrom]
  · exact (diary_displayed_index_selects_displayed_record.2
      [("f00", ⟨0,0,0,0⟩), ("f01", ⟨1,0,0,0⟩), ("f02", ⟨2,0,0,0⟩), ("f03", ⟨3,0,0,0⟩),
       ("f04", ⟨4,0,0,0⟩), ("f05", ⟨5,0,0,0⟩), ("f06", ⟨6,0,0,0⟩), ("f07", ⟨7,0,0,0⟩),
       ("f08", ⟨8,0,0,0⟩), ("f09", ⟨9,0,0,0⟩), ("f10", ⟨10,0,0,0⟩)] 1 (by norm_num)
      (by simp)).2

/-- Refutation of claim C5 as stated: with an 11-record catalog and
`current_page = 2`, index 1 is in range for the page-2 slice (which has
exactly one record), yet select(1) returns the first record of the full
sorted list, which is not an element of the page-2 slice. -/
theorem diary_select_not_page_relative :
    logSelect
        [("f00", ⟨0,0,0,0⟩), ("f01", ⟨0,0,0,0⟩), ("f02", ⟨0,0,0,0⟩), ("f03", ⟨0,0,0,0⟩),
         ("f04", ⟨0,0,0,0⟩), ("f05", ⟨0,0,0,0⟩), ("f06", ⟨0,0,0,0⟩), ("f07", ⟨0,0,0,0⟩),
         ("f08", ⟨0,0,0,0⟩), ("f09", ⟨0,0,0,0⟩), ("f10", ⟨0,0,0,0⟩)] 1
      = some ("f00", ⟨0,0,0,0⟩)
    ∧ (pageItems
        [("f00", ⟨0,0,0,0⟩), ("f01", ⟨0,0,0,0⟩), ("f02", ⟨0,0,0,0⟩), ("f03", ⟨0,0,0,0⟩),
         ("f04", ⟨0,0,0,0⟩), ("f05", ⟨0,0,0,0⟩), ("f06", ⟨0,0,0,0⟩), ("f07", ⟨0,0,0,0⟩),
         ("f08", ⟨0,0,0,0⟩), ("f09", ⟨0,0,0,0⟩), ("f10", ⟨0,0,0,0⟩)] 2).length = 1
    ∧ ("f00", (⟨0,0,0,0⟩ : NutrientProfile)) ∉ pageItems
        [("f00", ⟨0,0,0,0⟩), ("f01", ⟨0,0,0,0⟩), ("f02", ⟨0,0,0,0⟩), ("f03", ⟨0,0,0,0⟩),
         ("f04", ⟨0,0,0,0⟩), ("f05", ⟨0,0,0,0⟩), ("f06", ⟨0,0,0,0⟩), ("f07", ⟨0,0,0,0⟩),
         ("f08", ⟨0,0,0,0⟩), ("f09", ⟨0,0,0,0⟩), ("f10", ⟨0,0,0,0⟩)] 2 := by
  refine ⟨?_, ?_, ?_⟩
  · simp [logSelect]
  · simp [pageItems, items_per_page]
  · simp [pageItems, items_per_page]

/-- Claim C5 amended: select(i) resolves against the full name-sorted list
as sortedList[i-1], independently of the currently displayed page; the
selected record is the element of the page slice that contains global
position i - the page ⌊(i-1)/pageSize⌋+1 - which need not be the current
page. -/
theorem diary_select_resolves_against_full_list
    (food_list : List (String × NutrientProfile)) (i : ℕ)
    (h1 : 1 ≤ i) (h2 : i ≤ food_list.length) :
    logSelect food_list i = food_list[i - 1]?
    ∧ logSelect food_list i
      = (pageItems food_list ((i - 1) / items_per_page + 1))[(i - 1) % items_per_page]? := by
  refine ⟨logSelect_eq food_list i h1 h2, ?_⟩
  rw [logSelect_eq food_list i h1 h2]
  rw [pageItems_getElem food_list ((i - 1) / items_per_page + 1) ((i - 1) % items_per_page)
    (Nat.mod_lt _ (by simp [items_per_page]))]
  congr 1
  have h3 : (i - 1) / items_per_page + 1 - 1 = (i - 1) / items_per_page := Nat.add_sub_cancel _ 1
  rw [h3, Nat.mul_comm ((i - 1) / items_per_page) items_per_page]
  exact (Nat.div_add_mod (i - 1) items_per_page).symm

/-- Concrete application of the amended C5 at a two-record catalog. -/
theorem diary_select_resolves_against_full_list_witness :
    logSelect [("a", ⟨0,0,0,0⟩), ("b", ⟨0,0,0,0⟩)] 2
      = [("a", (⟨0,0,0,0⟩ : NutrientProfile)), ("b", ⟨0,0,0,0⟩)][2 - 1]?
    ∧ logSelect [("a", ⟨0,0,0,0⟩), ("b", ⟨0,0,0,0⟩)] 2
      = (pageItems [("a", ⟨0,0,0,0⟩), ("b", ⟨0,0,0,0⟩)]
          ((2 - 1) / items_per_page + 1))[(2 - 1) % items_per_page]? :=
  diary_select_resolves_against_full_list
    [("a", ⟨0,0,0,0⟩), ("b", ⟨0,0,0,0⟩)] 2 (by norm_num) (by simp)

/-- Claim C9: calling next() when currentPageNumber equals the last page
(the total result count ceiling-divided by the page size) is a no-op: the
state — current_page and all fetched products — is returned unchanged and
the Boolean fetch-issued flag is false, whatever a fetch would have
returned. -/
theorem next_on_last_page_is_noop (st : SearchState) (fetch : FetchResult)
    (h : st.current_page = totalPagesOf st) :
    nextCmd st fetch = (st, false) := by
  unfold nextCmd
  rw [if_neg (by omega)]

/-- Concrete application of C9: 30 total results give 2 pages; next() on
page 2 leaves the session untouched and issues no fetch. -/
theorem next_on_last_page_is_noop_witness :
    (⟨"q", [], 2, "", 30⟩ : SearchState).current_page
        = totalPagesOf ⟨"q", [], 2, "", 30⟩
    ∧ nextCmd ⟨"q", [], 2, "", 30⟩ FetchResult.failure = (⟨"q", [], 2, "", 30⟩, false) :=
  ⟨rfl, next_on_last_page_is_noop ⟨"q", [], 2, "", 30⟩ FetchResult.failure rfl⟩

/-- Claim C8: when next() is called on a non-last page whose successor page
has not yet been fetched and the fetch fails, the page number is rolled
back to its pre-call value, the fetched products are not modified (the
returned state equals the original state exactly), a fetch was attempted,
and the pager loop continues. -/
theorem next_fetch_failure_rolls_back (gmatch : String → String → Bool)
    (st : SearchState) (foods : List (String × NutrientProfile))
    (h1 : st.current_page < totalPagesOf st)
    (h2 : (st.current_page + 1) * SEARCH_PAGE_SIZE > st.all_products.length) :
    nextCmd st FetchResult.failure = (st, true)
    ∧ pagerStep gmatch st foods (PagerCmd.next FetchResult.failure)
      = PagerOutcome.cont st foods := by
  have hn : nextCmd st FetchResult.failure = (st, true) := by
    unfold nextCmd
    rw [if_pos h1, if_pos h2]
    simp
  exact ⟨hn, by simp [pagerStep, hn]⟩

/-- Concrete application of C8: 30 total results, nothing fetched yet,
page 1; a failing fetch for page 2 leaves the session on page 1 with its
product list intact, and the loop continues. -/
theorem next_fetch_failure_rolls_back_witness :
    (⟨"q", [], 1, "", 30⟩ : SearchState).current_page < totalPagesOf ⟨"q", [], 1, "", 30⟩
    ∧ nextCmd ⟨"q", [], 1, "", 30⟩ FetchResult.failure = (⟨"q", [], 1, "", 30⟩, true)
    ∧ pagerStep (fun _ _ => true) ⟨"q", [], 1, "", 30⟩ [] (PagerCmd.next FetchResult.failure)
      = PagerOutcome.cont ⟨"q", [], 1, "", 30⟩ [] := by
  refine ⟨by norm_num [totalPagesOf, SEARCH_PAGE_SIZE], ?_, ?_⟩
  · exact (next_fetch_failure_rolls_back (fun _ _ => true) ⟨"q", [], 1, "", 30⟩ []
      (by norm_num [totalPagesOf, SEARCH_PAGE_SIZE])
      (by norm_num [SEARCH_PAGE_SIZE])).1
  · exact (next_fetch_failure_rolls_back (fun _ _ => true) ⟨"q", [], 1, "", 30⟩ []
      (by norm_num [totalPagesOf, SEARCH_PAGE_SIZE])
      (by norm_num [SEARCH_PAGE_SIZE])).2

theorem resolveSelect_one_eq_head (gmatch : String → String → Bool)
    (all_products : List RawRecord) (current_page : ℕ) (pattern : String) :
    resolveSelect gmatch all_products current_page pattern 1
      = (filtered_products_on_page gmatch all_products current_page pattern).head? := by
  unfold resolveSelect
  cases hl : filtered_products_on_page gmatch all_products current_page pattern with
  | nil => simp
  | cons x t => simp

/-- Claim C1: the record resolved by a selection command equals the record
displayed with that number at the immediately preceding render — both are
the same pure function of (fetched products, current page, filter): the
fixed-size page slice, minus records with a missing/empty nutrient field,
minus records whose name fails the case-insensitive glob filter (an empty
filter matches everything), in original order, numbered from 1.  This
list also coincides with the spec's displayable-set pipeline, and in
particular, after setting any filter pattern, selecting index 1 selects
the first record of the current page slice that passes the filter and has
complete nutrient data. -/
theorem search_select_matches_display (gmatch : String → String → Bool) :
    (∀ (all_products : List RawRecord) (current_page : ℕ) (current_filter : String),
      filtered_products_on_page gmatch all_products current_page current_filter
        = displayRows gmatch (pageSliceSearch all_products current_page) current_filter
      ∧ filtered_products_on_page gmatch all_products current_page current_filter
        = displayableSetSpec gmatch all_products current_page current_filter)
    ∧ (∀ (all_products : List RawRecord) (current_page : ℕ) (current_filter : String)
      (i : ℕ) (r : RawRecord),
      (i, r) ∈ displayTable gmatch (pageSliceSearch all_products current_page) current_filter →
      resolveSelect gmatch all_products current_page current_filter (i : ℤ) = some r)
    ∧ (∀ (st : SearchState) (foods : List (String × NutrientProfile)) (pattern : String),
      pagerStep gmatch st foods (PagerCmd.setFilter pattern)
        = PagerOutcome.cont { st with current_filter := pattern } foods)
    ∧ (∀ (all_products : List RawRecord) (current_page : ℕ) (pattern : String),
      resolveSelect gmatch all_products current_page pattern 1
        = (pageSliceSearch all_products current_page).find?
            (fun p => matchesFilterB gmatch pattern p && completeB p)) := by
  refine ⟨?_, ?_, fun st foods pattern => rfl, ?_⟩
  · intro all_products current_page current_filter
    constructor
    · rfl
    · unfold filtered_products_on_page displayableSetSpec
      rw [List.filter_filter]
  · intro all_products current_page current_filter i r hmem
    obtain ⟨h1, h2⟩ := mem_enumFrom_getElem _ _ _ _ hmem
    have h2' : (filtered_products_on_page gmatch all_products current_page
        current_filter)[i - 1]? = some r := h2
    obtain ⟨hlt, -⟩ := List.getElem?_eq_some_iff.mp h2'
    unfold resolveSelect
    rw [if_neg (by omega)]
    have htn : ((i : ℤ) - 1).toNat = i - 1 := by omega
    rw [htn]
    exact h2'
  · intro all_products current_page pattern
    rw [resolveSelect_one_eq_head]
    unfold filtered_products_on_page
    exact List.filter_head? _ _

/-- Concrete application of C1 at a two-record fetched page: after setting
filter pattern "x", the table shows the single complete record, numbered
1, and selecting index 1 resolves to exactly that record, which is also
the first passing record of the page slice. -/
theorem search_select_matches_display_witness :
    resolveSelect (fun _ _ => true)
        [⟨"raw", "", none, some 1, some 1, some 1⟩,
         ⟨"good", "100g", some 52, some 1, some 14, some 1⟩] 1 "x" ((1 : ℕ) : ℤ)
      = some ⟨"good", "100g", some 52, some 1, some 14, some 1⟩
    ∧ resolveSelect (fun _ _ => true)
        [⟨"raw", "", none, some 1, some 1, some 1⟩,
         ⟨"good", "100g", some 52, some 1, some 14, some 1⟩] 1 "x" 1
      = (pageSliceSearch
          [⟨"raw", "", none, some 1, some 1, some 1⟩,
           ⟨"good", "100g", some 52, some 1, some 14, some 1⟩] 1).find?
          (fun p => matchesFilterB (fun _ _ => true) "x" p && completeB p) := by
  constructor
  · apply (search_select_matches_display (fun _ _ => true)).2.1
      [⟨"raw", "", none, some 1, some 1, some 1⟩,
       ⟨"good", "100g", some 52, some 1, some 14, some 1⟩] 1 "x" 1
      ⟨"good", "100g", some 52, some 1, some 14, some 1⟩
    simp [displayTable, displayRows, pageSliceSearch, SEARCH_PAGE_SIZE,
      matchesFilterB, completeB, List.enumFrom]
  · exact (search_select_matches_display (fun _ _ => true)).2.2.2
      [⟨"raw", "", none, some 1, some 1, some 1⟩,
       ⟨"good", "100g", some 52, some 1, some 14, some 1⟩] 1 "x"

/-- Refutation of claim C4 as stated: at a concrete pager state with one
displayable record and a catalog already containing the chosen local name
"x", the select command `a 1 x` makes the pager step end the whole search
session (the handler returns) instead of continuing to accept pager
commands; the catalog is left unmutated. -/
theorem select_duplicate_name_counterexample :
    pagerStep (fun _ _ => true)
        ⟨"q", [⟨"good", "100g", some 52, some 1, some 14, some 1⟩], 1, "", 1⟩
        [("x", ⟨1, 1, 1, 1⟩)] (PagerCmd.select 1 "x" none)
      = PagerOutcome.exit
          ⟨"q", [⟨"good", "100g", some 52, some 1, some 14, some 1⟩], 1, "", 1⟩
          [("x", ⟨1, 1, 1, 1⟩)]
    ∧ (pagerStep (fun _ _ => true)
        ⟨"q", [⟨"good", "100g", some 52, some 1, some 14, some 1⟩], 1, "", 1⟩
        [("x", ⟨1, 1, 1, 1⟩)] (PagerCmd.select 1 "x" none)).continues = false := by
  have hres : resolveSelect (fun _ _ => true)
      [⟨"good", "100g", some 52, some 1, some 14, some 1⟩] 1 "" 1
      = some ⟨"good", "100g", some 52, some 1, some 14, some 1⟩ := by
    simp [resolveSelect, filtered_products_on_page, pageSliceSearch, SEARCH_PAGE_SIZE,
      matchesFilterB, completeB]
  constructor
  · simp [pagerStep, hres, List.lookup]
  · simp [pagerStep, hres, List.lookup, PagerOutcome.continues]

/-- Claim C4 amended: a select command whose localName already exists in the
Food Catalog fails without any mutation of the catalog, but the failure is
not local — the handler returns, ending the browsing session, instead of
continuing to accept pager commands. -/
theorem select_duplicate_name_no_mutation_but_session_ends
    (gmatch : String → String → Bool) (st : SearchState)
    (foods : List (String × NutrientProfile)) (display_index : ℤ)
    (local_name : String) (grams : Option ℚ) (r : RawRecord)
    (hres : resolveSelect gmatch st.all_products st.current_page st.current_filter
      display_index = some r)
    (hdup : (List.lookup local_name foods).isSome) :
    pagerStep gmatch st foods (PagerCmd.select display_index local_name grams)
      = PagerOutcome.exit st foods
    ∧ (pagerStep gmatch st foods
        (PagerCmd.select display_index local_name grams)).foodsOf = foods := by
  have h : pagerStep gmatch st foods (PagerCmd.select display_index local_name grams)
      = PagerOutcome.exit st foods := by
    simp [pagerStep, hres, hdup]
  exact ⟨h, by rw [h]; rfl⟩

/-- Concrete application of the amended C4 at the counterexample state. -/
theorem select_duplicate_name_no_mutation_but_session_ends_witness :
    pagerStep (fun _ _ => true)
        ⟨"q", [⟨"good", "100g", some 52, some 1, some 14, some 1⟩], 1, "", 1⟩
        [("x", ⟨1, 1, 1, 1⟩)] (PagerCmd.select 1 "x" (some 50))
      = PagerOutcome.exit
          ⟨"q", [⟨"good", "100g", some 52, some 1, some 14, some 1⟩], 1, "", 1⟩
          [("x", ⟨1, 1, 1, 1⟩)]
    ∧ (pagerStep (fun _ _ => true)
        ⟨"q", [⟨"good", "100g", some 52, some 1, some 14, some 1⟩], 1, "", 1⟩
        [("x", ⟨1, 1, 1, 1⟩)] (PagerCmd.select 1 "x" (some 50))).foodsOf
      = [("x", ⟨1, 1, 1, 1⟩)] :=
  select_duplicate_name_no_mutation_but_session_ends (fun _ _ => true)
    ⟨"q", [⟨"good", "100g", some 52, some 1, some 14, some 1⟩], 1, "", 1⟩
    [("x", ⟨1, 1, 1, 1⟩)] 1 "x" (some 50)
    ⟨"good", "100g", some 52, some 1, some 14, some 1⟩
    (by simp [resolveSelect, filtered_products_on_page, pageSliceSearch, SEARCH_PAGE_SIZE,
      matchesFilterB, completeB]) rfl
